import Mathlib

/-!
Verification of the BoostIQ early-pump screening API.

The program screens an exchange's ticker universe for "explosive" tokens:
it derives per-symbol indicators (5m/1h percent change, RSI, volume ratio,
range compression, volatility) from candle series, combines them into a
weighted integer score, admits symbols past multi-factor thresholds and
returns ranked, size-bounded candidate lists behind a short-lived cache.

JavaScript numbers are embedded as exact rationals (`ℚ`); the only places
the source can produce `NaN` (a `0/0` on an empty change or volume window)
are modelled explicitly with `Option`/guards, never by the `x / 0 = 0`
convention of `ℚ`.  Network fetches are external: the indicator functions
take the fetched candle window as an argument, and the screening pipelines
take the ticker snapshot plus a per-symbol indicator environment.
-/

namespace BoostIQ

/-- JavaScript `Math.round` on an exact rational: round half toward
positive infinity, i.e. `⌊q + 1/2⌋`. -/
def jsRound (q : ℚ) : ℤ := ⌊q + 1 / 2⌋

/-- JavaScript `x.toFixed(2)` read back with `parseFloat`, on an exact
rational: round to two decimal places, ties toward positive infinity
(ECMA picks the larger candidate). -/
def toFixed2 (q : ℚ) : ℚ := (jsRound (q * 100) : ℚ) / 100

/-! ### CONFIG constants (source lines 27–47) -/

/-- `CONFIG.MIN_VOLUME_EXPLOSION` -/
def minVolumeExplosion : ℚ := 30000

/-- `CONFIG.MIN_VOLUME_REGULAR` -/
def minVolumeRegular : ℚ := 20000

/-- `CONFIG.MIN_GAIN_5M` -/
def minGain5m : ℚ := 3

/-- `CONFIG.MIN_GAIN_1H` -/
def minGain1h : ℚ := 4

/-- `CONFIG.MIN_VOLUME_RATIO` -/
def minVolRatio : ℚ := 1.5

/-- `CONFIG.RSI_MIN` -/
def rsiMin : ℤ := 40

/-- `CONFIG.RSI_MAX` -/
def rsiMax : ℤ := 70

/-- `CONFIG.MIN_EXPLOSION_SCORE` -/
def minExplosionScore : ℤ := 40

/-- `CONFIG.MIN_ALERT_SCORE` -/
def minAlertScore : ℤ := 40

/-- `CONFIG.MAX_CANDIDATES` -/
def maxCandidates : ℕ := 50

/-- `CONFIG.TOP_RESULTS` -/
def topResults : ℕ := 10

/-- `CONFIG.RSI_PERIOD` -/
def rsiPeriod : ℕ := 14

/-- `CONFIG.COMPRESSION_THRESHOLD` -/
def compressionThreshold : ℚ := 0.5

/-! ### Data model -/

/-- The fields of a Binance kline the program reads: index 4 (close) and
index 5 (volume), both `parseFloat`ed. -/
structure Candle where
  close : ℚ
  volume : ℚ
deriving Repr, DecidableEq

/-! ### IndicatorEngine -/

/-- `calculateChange`: percent change between the closes of the first two
candles of the fetched `limit=2` window, `toFixed(2)`; `0` when fewer than
2 candles are available (the insufficient-data warn branch). -/
def calculateChange (candles : List Candle) : ℚ :=
  match candles with
  | prev :: curr :: _ => toFixed2 ((curr.close - prev.close) / prev.close * 100)
  | _ => 0

/-- The close-to-close deltas `closes.slice(1).map((close, i) => close - closes[i])`. -/
def rsiChanges (closes : List ℚ) : List ℚ :=
  List.zipWith (fun next prev => next - prev) (closes.drop 1) closes

/-- JavaScript `slice(-n)`: the last `n` elements. -/
def lastN (n : ℕ) (l : List ℚ) : List ℚ := l.drop (l.length - n)

/-- The simple average of the most recent `rsiPeriod` gains. -/
def rsiAvgGain (closes : List ℚ) : ℚ :=
  (lastN rsiPeriod ((rsiChanges closes).map (fun c => if 0 < c then c else 0))).sum
    / (rsiPeriod : ℚ)

/-- The simple average of the most recent `rsiPeriod` losses (as positive numbers). -/
def rsiAvgLoss (closes : List ℚ) : ℚ :=
  (lastN rsiPeriod ((rsiChanges closes).map (fun c => if c < 0 then -c else 0))).sum
    / (rsiPeriod : ℚ)

/-- `calculateRSI`: Wilder-style RSI with simple averaging over the last
`rsiPeriod` deltas; 50 on fewer than `rsiPeriod + 1` closes; if the average
loss is 0, then 100 when the average gain is positive and 50 otherwise;
else `Math.round(100 - 100 / (1 + avgGain / avgLoss))`. -/
def calculateRSI (candles : List Candle) : ℤ :=
  let closes := candles.map Candle.close
  if closes.length < rsiPeriod + 1 then 50
  else
    let avgGain := rsiAvgGain closes
    let avgLoss := rsiAvgLoss closes
    if avgLoss = 0 then (if 0 < avgGain then 100 else 50)
    else jsRound (100 - 100 / (1 + avgGain / avgLoss))

/-- `calculateVolumeRatio`: current volume over the mean daily volume of
the fetched window, `toFixed(2)`.  The source computes
`(sum / length) || 1`: on an empty window JS produces `NaN = 0/0`, and both
`NaN` and `0` are falsy, so the mean is floored to `1` exactly when it is
`0` or the window is empty; in this exact embedding `sum / 0 = 0`, so the
single test `mean = 0` covers both falsy cases. -/
def calculateVolumeRatio (currentVolume : ℚ) (candles : List Candle) : ℚ :=
  let mean := (candles.map Candle.volume).sum / ((candles.length : ℚ))
  let avgVolume := if mean = 0 then 1 else mean
  toFixed2 (currentVolume / avgVolume)

/-- Consecutive percent-changes of a close series:
`closes.slice(1).map((close, i) => (close - closes[i]) / closes[i] * 100)`. -/
def pctChanges (closes : List ℚ) : List ℚ :=
  List.zipWith (fun next prev => (next - prev) / prev * 100) (closes.drop 1) closes

/-- Population variance: the mean of squared deviations from the mean,
exactly the expression under `Math.sqrt` in the source's stdDev. -/
def popVariance (xs : List ℚ) : ℚ :=
  let m := xs.sum / ((xs.length : ℚ))
  (xs.map (fun c => (c - m) ^ 2)).sum / ((xs.length : ℚ))

/-- `calculateCompression` compares `Math.sqrt(popVariance changes)` with
the threshold `0.5`.  Both sides of that comparison are nonnegative, so it
equals the decidable rational comparison `variance < threshold²` used here.
With no consecutive changes the JS variance is `0/0 = NaN` and
`NaN < 0.5` is `false`, the first branch. -/
def calculateCompression (candles : List Candle) : Bool :=
  let changes := pctChanges (candles.map Candle.close)
  if changes.isEmpty then false
  else decide (popVariance changes < compressionThreshold ^ 2)

/-- `calculateVolatility` returns `Math.sqrt(popVariance changes).toFixed(2)`.
`none` models the JS `NaN` produced when there are no consecutive changes
(`0/0` inside the variance; `NaN.toFixed(2)` is the string `"NaN"`, not a
number).  The `some` case carries the variance, i.e. the exact value before
the strictly monotone square root and the 2-decimal rounding the source
applies; no theorem below depends on the `some` payload. -/
def calculateVolatility (candles : List Candle) : Option ℚ :=
  let changes := pctChanges (candles.map Candle.close)
  if changes.isEmpty then none
  else some (popVariance changes)

/-! ### Symbols and the ticker snapshot -/

/-- JavaScript `String.prototype.endsWith`, via a character-list suffix
test (Lean's builtin `String.endsWith` does not reduce in the kernel). -/
def jsEndsWith (s sfx : String) : Bool :=
  sfx.data.isSuffixOf s.data

/-- `POPULAR_TOKENS` (source lines 66–72): the fixed, read-only set of
well-known symbols always excluded from candidacy. -/
def popularTokens : List String :=
  ["BTCUSDT", "ETHUSDT", "BNBUSDT", "XRPUSDT", "ADAUSDT", "SOLUSDT", "DOGEUSDT",
   "MATICUSDT", "DOTUSDT", "TRXUSDT", "LTCUSDT", "LINKUSDT", "SHIBUSDT", "AVAXUSDT",
   "ATOMUSDT", "NEARUSDT", "XLMUSDT", "ETCUSDT", "BCHUSDT", "HBARUSDT",
   "FILUSDT", "SUIUSDT", "APTUSDT", "INJUSDT", "IMXUSDT", "ARBUSDT", "RNDRUSDT",
   "TONUSDT", "ICPUSDT", "CROUSDT", "NEOUSDT", "IOTAUSDT", "QTUMUSDT"]

/-- The fields of a `/ticker/24hr` entry the pipelines read. -/
structure Ticker where
  symbol : String
  lastPrice : ℚ
  baseVolume : ℚ

/-- The shared symbol filter of both pipelines:
`t.symbol.endsWith('USDT') && !POPULAR_TOKENS.has(t.symbol)`. -/
def eligibleSymbol (sym : String) : Bool :=
  jsEndsWith sym "USDT" && ! (popularTokens.contains sym)

/-- The six per-symbol indicator results the pipelines await concurrently.
The network layer is external, so the pipelines receive them as an
environment keyed by symbol; the fields hold the already-`parseFloat`ed
values exactly as the score expressions consume them. -/
structure IndicatorSet where
  change5m : ℚ
  change1h : ℚ
  rsi : ℤ
  volumeRatio : ℚ
  compression : Bool
  volatility : Option ℚ

/-- A ranked result entry (the candidate/alert objects the endpoints push).
`score` is the scenario's `explosionScore`/`alertScore` field. -/
structure Candidate where
  symbol : String
  price : ℚ
  change5m : ℚ
  change1h : ℚ
  volume : ℚ
  volumeRatio : ℚ
  rsi : ℤ
  volatility : Option ℚ
  score : ℤ
  isNew : Bool
  compression : Bool
  action : String
  confidence : String

/-! ### ScoringPolicy -/

/-- The weighted composite score of the explosion-candidate endpoint
(source lines 236–244): references 25/35/10, weights 0.4/0.2/0.3/0.1,
RSI band term 100/50, new-listing bonus 20, compression bonus 10 and a
fixed time bonus of 20, `Math.round`ed. -/
def explosionScore (ind : IndicatorSet) (isNew : Bool) : ℤ :=
  jsRound (
    ind.change5m / 25 * 100 * 0.4
    + ind.change1h / 35 * 100 * 0.2
    + ind.volumeRatio / 10 * 100 * 0.3
    + (if rsiMin ≤ ind.rsi ∧ ind.rsi ≤ rsiMax then (100 : ℚ) else 50) * 0.1
    + (if isNew then 20 else 0)
    + (if ind.compression then 10 else 0)
    + 20)

/-- The weighted composite score of the pre-explosion-signal endpoint
(source lines 336–344): identical to `explosionScore` except the
compression bonus is 25. -/
def alertScore (ind : IndicatorSet) (isNew : Bool) : ℤ :=
  jsRound (
    ind.change5m / 25 * 100 * 0.4
    + ind.change1h / 35 * 100 * 0.2
    + ind.volumeRatio / 10 * 100 * 0.3
    + (if rsiMin ≤ ind.rsi ∧ ind.rsi ≤ rsiMax then (100 : ℚ) else 50) * 0.1
    + (if isNew then 20 else 0)
    + (if ind.compression then 25 else 0)
    + 20)

/-- The score of the single-symbol analysis endpoint (source lines
420–426): the same four weighted terms and compression bonus 10, but no
new-listing bonus and no fixed time bonus. -/
def analysisScore (ind : IndicatorSet) : ℤ :=
  jsRound (
    ind.change5m / 25 * 100 * 0.4
    + ind.change1h / 35 * 100 * 0.2
    + ind.volumeRatio / 10 * 100 * 0.3
    + (if rsiMin ≤ ind.rsi ∧ ind.rsi ≤ rsiMax then (100 : ℚ) else 50) * 0.1
    + (if ind.compression then 10 else 0))

/-- The explosion admission predicate (source lines 246–252). -/
def explosionAdmission (ind : IndicatorSet) (score : ℤ) : Prop :=
  minGain5m ≤ ind.change5m ∧ minGain1h ≤ ind.change1h
    ∧ minVolRatio ≤ ind.volumeRatio
    ∧ rsiMin ≤ ind.rsi ∧ ind.rsi ≤ rsiMax
    ∧ minExplosionScore ≤ score

instance (ind : IndicatorSet) (score : ℤ) : Decidable (explosionAdmission ind score) := by
  unfold explosionAdmission; infer_instance

/-- The alert admission predicate (source lines 346–351): the same
momentum/volume minimums, no RSI gate, and the alert score threshold. -/
def alertAdmission (ind : IndicatorSet) (score : ℤ) : Prop :=
  minGain5m ≤ ind.change5m ∧ minGain1h ≤ ind.change1h
    ∧ minVolRatio ≤ ind.volumeRatio
    ∧ minAlertScore ≤ score

instance (ind : IndicatorSet) (score : ℤ) : Decidable (alertAdmission ind score) := by
  unfold alertAdmission; infer_instance

/-! ### RecommendationBuilder (the fields the claims mention) -/

/-- The two-tier action of the explosion and analysis endpoints. -/
def explosionAction (score : ℤ) : String :=
  if 80 ≤ score then "🔥 COMPRA FUERTE" else "👀 MONITOREAR"

/-- The three-tier action of the pre-explosion-signal endpoint. -/
def alertAction (score : ℤ) : String :=
  if 80 ≤ score then "🔥 POSIBLE EXPLOSIÓN"
  else if 60 ≤ score then "👀 MONITOREAR"
  else "❌ EVITAR"

/-! ### ScreeningPipeline -/

/-- One iteration of the explosion-candidates loop (source lines 216–283):
the `continue`s for a non-USDT or popular symbol and for the volume floor,
the six awaited indicators, the score, the admission test and the pushed
candidate object. -/
def buildExplosionCandidate (newListings : List String)
    (env : String → IndicatorSet) (t : Ticker) : Option Candidate :=
  if eligibleSymbol t.symbol then
    if t.baseVolume < minVolumeExplosion then none
    else
      let ind := env t.symbol
      let isNew := newListings.contains t.symbol
      let score := explosionScore ind isNew
      if explosionAdmission ind score then
        some { symbol := t.symbol, price := t.lastPrice,
               change5m := ind.change5m, change1h := ind.change1h,
               volume := t.baseVolume, volumeRatio := ind.volumeRatio,
               rsi := ind.rsi, volatility := ind.volatility,
               score := score, isNew := isNew, compression := ind.compression,
               action := explosionAction score,
               confidence := if 80 ≤ score then "MUY ALTA" else "MEDIA" }
      else none
  else none

/-- One iteration of the pre-explosion-signals loop (source lines 316–371):
lower volume floor, `alertScore`, admission without the RSI gate, and the
three-tier recommendation action. -/
def buildAlertCandidate (newListings : List String)
    (env : String → IndicatorSet) (t : Ticker) : Option Candidate :=
  if eligibleSymbol t.symbol then
    if t.baseVolume < minVolumeRegular then none
    else
      let ind := env t.symbol
      let isNew := newListings.contains t.symbol
      let score := alertScore ind isNew
      if alertAdmission ind score then
        some { symbol := t.symbol, price := t.lastPrice,
               change5m := ind.change5m, change1h := ind.change1h,
               volume := t.baseVolume, volumeRatio := ind.volumeRatio,
               rsi := ind.rsi, volatility := ind.volatility,
               score := score, isNew := isNew, compression := ind.compression,
               action := alertAction score,
               confidence := if 80 ≤ score then "ALTA" else "MEDIA" }
      else none
  else none

/-- The JavaScript `sort((a, b) => b.score - a.score)`: sort by score
descending (stable, as a modern `Array.prototype.sort` is). -/
def sortByScoreDesc (l : List Candidate) : List Candidate :=
  List.insertionSort (fun a b => b.score ≤ a.score) l

/-- The ranking tail both pipelines share: sort by score descending,
`slice(0, TOP_RESULTS)`, then the source's re-truncation guard
(`if (top.length > TOP_RESULTS) top.length = TOP_RESULTS`), which is dead
after the slice but kept here as written. -/
def rankTruncate (l : List Candidate) : List Candidate :=
  let top := (sortByScoreDesc l).take topResults
  if topResults < top.length then top.take topResults else top

/-- `GET /api/explosion-candidates`, the pipeline body on a cache miss:
truncate the raw snapshot to `maxCandidates`, run the per-symbol loop,
rank and truncate. -/
def explosionCandidates (tickers : List Ticker) (env : String → IndicatorSet)
    (newListings : List String) : List Candidate :=
  rankTruncate ((tickers.take maxCandidates).filterMap
    (buildExplosionCandidate newListings env))

/-- `GET /api/pre-explosion-signals`, the pipeline body on a cache miss. -/
def preExplosionSignals (tickers : List Ticker) (env : String → IndicatorSet)
    (newListings : List String) : List Candidate :=
  rankTruncate ((tickers.take maxCandidates).filterMap
    (buildAlertCandidate newListings env))

/-- `GET /api/analysis/:symbol` (source lines 404–445): no admission
filter; always exactly one result, carrying `analysisScore` and the
explosion-style recommendation. -/
def analysisResult (t : Ticker) (ind : IndicatorSet) : Candidate :=
  let score := analysisScore ind
  { symbol := t.symbol, price := t.lastPrice,
    change5m := ind.change5m, change1h := ind.change1h,
    volume := t.baseVolume, volumeRatio := ind.volumeRatio,
    rsi := ind.rsi, volatility := ind.volatility,
    score := score, isNew := false, compression := ind.compression,
    action := explosionAction score,
    confidence := if 80 ≤ score then "MUY ALTA" else "MEDIA" }

/-! ### CandidateCache and the endpoint runs -/

/-- The two TTL stores: `shortCache` keyed by scenario name holding ranked
result lists, and `longCache` holding the new-listing set.  `get` returning
`some` models an entry whose TTL has not expired; expiry is a miss
(`NodeCache.get` returns `undefined` then). -/
structure CacheState where
  short : String → Option (List Candidate)
  listings : Option (List String)

/-- One run of `GET /api/explosion-candidates` against a cache state:
the result list, the number of upstream fetches the run performs, and the
cache afterwards.  An unexpired short-cache entry is returned before any
fetch (`if (cached) return res.json(cached)`; a stored array is always
truthy).  A miss performs one ticker-snapshot fetch, one exchange-info
fetch unless the listing cache holds, and six indicator fetches for every
symbol that reaches the indicator stage, then stores the ranked result
under the scenario key. -/
def runExplosion (cache : CacheState) (tickers : List Ticker)
    (env : String → IndicatorSet) (freshListings : List String) :
    List Candidate × ℕ × CacheState :=
  match cache.short "explosionCandidates" with
  | some r => (r, 0, cache)
  | none =>
      let nl := cache.listings.getD freshListings
      let listingFetches := if cache.listings.isSome then 0 else 1
      let processed := (tickers.take maxCandidates).filter
        (fun t => eligibleSymbol t.symbol && ! decide (t.baseVolume < minVolumeExplosion))
      let result := explosionCandidates tickers env nl
      (result, 1 + listingFetches + 6 * processed.length,
       { short := fun k => if k = "explosionCandidates" then some result else cache.short k,
         listings := some nl })

/-- One run of `GET /api/pre-explosion-signals` against a cache state;
same shape as `runExplosion` with the alert scenario's key, volume floor
and pipeline. -/
def runPreExplosion (cache : CacheState) (tickers : List Ticker)
    (env : String → IndicatorSet) (freshListings : List String) :
    List Candidate × ℕ × CacheState :=
  match cache.short "preExplosionSignals" with
  | some r => (r, 0, cache)
  | none =>
      let nl := cache.listings.getD freshListings
      let listingFetches := if cache.listings.isSome then 0 else 1
      let processed := (tickers.take maxCandidates).filter
        (fun t => eligibleSymbol t.symbol && ! decide (t.baseVolume < minVolumeRegular))
      let result := preExplosionSignals tickers env nl
      (result, 1 + listingFetches + 6 * processed.length,
       { short := fun k => if k = "preExplosionSignals" then some result else cache.short k,
         listings := some nl })

/-! ### The candidate pool, as the code has it and as the spec words it -/

/-- The symbols the pipelines hand to the per-symbol indicator stage
(before the volume floor): the source truncates the raw snapshot to
`maxCandidates` FIRST (`tickerData.slice(0, MAX_CANDIDATES)`) and filters
for eligibility inside the loop afterwards. -/
def codeCandidatePool (tickers : List Ticker) : List String :=
  ((tickers.take maxCandidates).filter (fun t => eligibleSymbol t.symbol)).map Ticker.symbol

/-- Modelled from the spec: the pool §4.5 step 3 describes — keep the
eligible symbols of the whole snapshot, THEN truncate the filtered
sequence to `maxCandidates` ("the first 50 eligible symbols"). -/
def specCandidatePool (tickers : List Ticker) : List String :=
  ((tickers.filter (fun t => eligibleSymbol t.symbol)).take maxCandidates).map Ticker.symbol

/-! ### Concrete worked inputs -/

/-- The spec §8 worked example: `change5m = 4`, `change1h = 5`, RSI 55,
`volumeRatio = 2.0`, compressed, not a new listing. -/
def exampleInd : IndicatorSet :=
  { change5m := 4, change1h := 5, rsi := 55, volumeRatio := 2,
    compression := true, volatility := some 3 }

/-- An eligible ticker with volume above both scenario floors. -/
def exampleTicker : Ticker :=
  { symbol := "ABCUSDT", lastPrice := 1, baseVolume := 50000 }

/-- An environment in which every symbol shows the worked example's
indicators. -/
def exampleEnv : String → IndicatorSet := fun _ => exampleInd

/-- The candidate the explosion pipeline builds from `exampleTicker` under
`exampleEnv` with no new listings. -/
def exampleCandidate : Candidate :=
  { symbol := "ABCUSDT", price := 1, change5m := 4, change1h := 5,
    volume := 50000, volumeRatio := 2, rsi := 55, volatility := some 3,
    score := 55, isNew := false, compression := true,
    action := "👀 MONITOREAR", confidence := "MEDIA" }

/-- Indicators that pass the alert admission at the lowest admitted band:
`alertScore` comes to 42, inside `[40, 60)`. -/
def avoidInd : IndicatorSet :=
  { change5m := 3, change1h := 4, rsi := 55, volumeRatio := 3/2,
    compression := false, volatility := some 2 }

/-- An environment showing `avoidInd` everywhere. -/
def avoidEnv : String → IndicatorSet := fun _ => avoidInd

/-- The alert the pre-explosion pipeline builds from `exampleTicker` under
`avoidEnv`: admitted with score 42 and the lowest-tier action. -/
def avoidCandidate : Candidate :=
  { symbol := "ABCUSDT", price := 1, change5m := 3, change1h := 4,
    volume := 50000, volumeRatio := 3/2, rsi := 55, volatility := some 2,
    score := 42, isNew := false, compression := false,
    action := "❌ EVITAR", confidence := "MEDIA" }

/-- An ineligible ticker (no USDT suffix) with high volume. -/
def fooTicker : Ticker := { symbol := "FOO", lastPrice := 1, baseVolume := 50000 }

/-- A snapshot whose first `maxCandidates` entries are all ineligible and
whose 51st entry is the eligible `exampleTicker`. -/
def cexTickers : List Ticker :=
  List.replicate maxCandidates fooTicker ++ [exampleTicker]

/-! ### Helper lemmas -/

theorem jsRound_nonneg {q : ℚ} (h : 0 ≤ q) : 0 ≤ jsRound q := by
  unfold jsRound
  rw [Int.floor_nonneg]
  linarith

theorem jsRound_le_of_lt {q : ℚ} {n : ℤ} (h : q < (n : ℚ)) : jsRound q ≤ n := by
  unfold jsRound
  have : ⌊q + 1 / 2⌋ < n + 1 := by
    rw [Int.floor_lt]
    push_cast
    linarith
  omega

theorem jsRound_add_int (q : ℚ) (n : ℤ) : jsRound (q + (n : ℚ)) = jsRound q + n := by
  unfold jsRound
  rw [show q + (n : ℚ) + 1 / 2 = q + 1 / 2 + (n : ℚ) by ring, Int.floor_add_int]

theorem explosionScore_example : explosionScore exampleInd false = 55 := by
  unfold explosionScore exampleInd jsRound
  norm_num [rsiMin, rsiMax]

theorem analysisScore_example : analysisScore exampleInd = 35 := by
  unfold analysisScore exampleInd jsRound
  norm_num [rsiMin, rsiMax]

theorem alertScore_avoid : alertScore avoidInd false = 42 := by
  unfold alertScore avoidInd jsRound
  norm_num [rsiMin, rsiMax]

theorem buildExplosion_example :
    buildExplosionCandidate [] exampleEnv exampleTicker = some exampleCandidate := by
  have hadm : explosionAdmission exampleInd 55 := by
    unfold explosionAdmission exampleInd minGain5m minGain1h minVolRatio rsiMin rsiMax
      minExplosionScore
    norm_num
  simp only [buildExplosionCandidate, exampleEnv]
  rw [if_pos (by decide : eligibleSymbol exampleTicker.symbol = true)]
  rw [if_neg (by norm_num [exampleTicker, minVolumeExplosion] :
    ¬ exampleTicker.baseVolume < minVolumeExplosion)]
  rw [show (([] : List String).contains exampleTicker.symbol) = false from rfl]
  rw [if_pos (explosionScore_example ▸ hadm)]
  simp only [explosionScore_example]
  unfold exampleCandidate exampleTicker exampleInd explosionAction
  norm_num

theorem explosionCandidates_example :
    explosionCandidates [exampleTicker] exampleEnv [] = [exampleCandidate] := by
  unfold explosionCandidates
  rw [List.take_of_length_le (by norm_num [maxCandidates])]
  rw [show List.filterMap (buildExplosionCandidate [] exampleEnv) [exampleTicker]
        = [exampleCandidate] by
      simp [List.filterMap_cons, buildExplosion_example]]
  unfold rankTruncate sortByScoreDesc
  simp [List.insertionSort, List.orderedInsert, topResults]

theorem buildAlert_avoid :
    buildAlertCandidate [] avoidEnv exampleTicker = some avoidCandidate := by
  have hadm : alertAdmission avoidInd 42 := by
    unfold alertAdmission avoidInd minGain5m minGain1h minVolRatio minAlertScore
    norm_num
  simp only [buildAlertCandidate, avoidEnv]
  rw [if_pos (by decide : eligibleSymbol exampleTicker.symbol = true)]
  rw [if_neg (by norm_num [exampleTicker, minVolumeRegular] :
    ¬ exampleTicker.baseVolume < minVolumeRegular)]
  rw [show (([] : List String).contains exampleTicker.symbol) = false from rfl]
  rw [if_pos (alertScore_avoid ▸ hadm)]
  simp only [alertScore_avoid]
  unfold avoidCandidate exampleTicker avoidInd alertAction
  norm_num

theorem preExplosionSignals_avoid :
    preExplosionSignals [exampleTicker] avoidEnv [] = [avoidCandidate] := by
  unfold preExplosionSignals
  rw [List.take_of_length_le (by norm_num [maxCandidates])]
  rw [show List.filterMap (buildAlertCandidate [] avoidEnv) [exampleTicker]
        = [avoidCandidate] by
      simp [List.filterMap_cons, buildAlert_avoid]]
  unfold rankTruncate sortByScoreDesc
  simp [List.insertionSort, List.orderedInsert, topResults]

instance : IsTotal Candidate (fun a b => b.score ≤ a.score) :=
  ⟨fun a b => le_total b.score a.score⟩

instance : IsTrans Candidate (fun a b => b.score ≤ a.score) :=
  ⟨fun _ _ _ h1 h2 => le_trans h2 h1⟩

theorem rankTruncate_length_le (l : List Candidate) :
    (rankTruncate l).length ≤ topResults := by
  simp only [rankTruncate]
  split
  · exact le_trans (by rw [List.length_take]; exact min_le_left _ _) (le_refl _)
  · rw [List.length_take]
    exact min_le_left _ _

theorem rankTruncate_sorted (l : List Candidate) :
    List.Sorted (fun a b => b.score ≤ a.score) (rankTruncate l) := by
  have hs : List.Sorted (fun a b => b.score ≤ a.score) (sortByScoreDesc l) :=
    List.sorted_insertionSort _ l
  simp only [rankTruncate]
  split
  · exact List.Pairwise.sublist (List.take_sublist _ _)
      (List.Pairwise.sublist (List.take_sublist _ _) hs)
  · exact List.Pairwise.sublist (List.take_sublist _ _) hs

theorem mem_rankTruncate {l : List Candidate} {c : Candidate}
    (h : c ∈ rankTruncate l) : c ∈ l := by
  simp only [rankTruncate] at h
  have hs : c ∈ sortByScoreDesc l := by
    split at h
    · exact List.mem_of_mem_take (List.mem_of_mem_take h)
    · exact List.mem_of_mem_take h
  exact (List.perm_insertionSort _ l).subset hs

theorem buildExplosion_some_inv {nl : List String} {env : String → IndicatorSet}
    {t : Ticker} {c : Candidate}
    (h : buildExplosionCandidate nl env t = some c) :
    eligibleSymbol t.symbol = true
    ∧ c.symbol = t.symbol
    ∧ c.score = explosionScore (env t.symbol) (nl.contains t.symbol)
    ∧ explosionAdmission (env t.symbol) c.score
    ∧ c.action = explosionAction c.score := by
  simp only [buildExplosionCandidate] at h
  by_cases h1 : eligibleSymbol t.symbol = true
  · rw [if_pos h1] at h
    by_cases h2 : t.baseVolume < minVolumeExplosion
    · rw [if_pos h2] at h; cases h
    · rw [if_neg h2] at h
      by_cases h3 : explosionAdmission (env t.symbol)
          (explosionScore (env t.symbol) (nl.contains t.symbol))
      · rw [if_pos h3] at h
        have hc := (Option.some.injEq _ _).mp h
        subst hc
        exact ⟨h1, rfl, rfl, h3, rfl⟩
      · rw [if_neg h3] at h; cases h
  · rw [if_neg h1] at h; cases h

theorem buildAlert_some_inv {nl : List String} {env : String → IndicatorSet}
    {t : Ticker} {c : Candidate}
    (h : buildAlertCandidate nl env t = some c) :
    eligibleSymbol t.symbol = true
    ∧ c.symbol = t.symbol
    ∧ c.score = alertScore (env t.symbol) (nl.contains t.symbol)
    ∧ alertAdmission (env t.symbol) c.score
    ∧ c.action = alertAction c.score := by
  simp only [buildAlertCandidate] at h
  by_cases h1 : eligibleSymbol t.symbol = true
  · rw [if_pos h1] at h
    by_cases h2 : t.baseVolume < minVolumeRegular
    · rw [if_pos h2] at h; cases h
    · rw [if_neg h2] at h
      by_cases h3 : alertAdmission (env t.symbol)
          (alertScore (env t.symbol) (nl.contains t.symbol))
      · rw [if_pos h3] at h
        have hc := (Option.some.injEq _ _).mp h
        subst hc
        exact ⟨h1, rfl, rfl, h3, rfl⟩
      · rw [if_neg h3] at h; cases h
  · rw [if_neg h1] at h; cases h

theorem mem_explosionCandidates_inv {tickers : List Ticker}
    {env : String → IndicatorSet} {nl : List String} {c : Candidate}
    (h : c ∈ explosionCandidates tickers env nl) :
    ∃ t ∈ tickers.take maxCandidates, buildExplosionCandidate nl env t = some c := by
  unfold explosionCandidates at h
  exact List.mem_filterMap.mp (mem_rankTruncate h)

theorem mem_preExplosionSignals_inv {tickers : List Ticker}
    {env : String → IndicatorSet} {nl : List String} {c : Candidate}
    (h : c ∈ preExplosionSignals tickers env nl) :
    ∃ t ∈ tickers.take maxCandidates, buildAlertCandidate nl env t = some c := by
  unfold preExplosionSignals at h
  exact List.mem_filterMap.mp (mem_rankTruncate h)

theorem filterMap_replicate_none {α β : Type} {f : α → Option β} {a : α}
    (h : f a = none) (n : ℕ) : (List.replicate n a).filterMap f = [] := by
  induction n with
  | zero => rfl
  | succ n ih => simp [List.replicate_succ, List.filterMap_cons, h, ih]

theorem buildExplosion_foo_none :
    buildExplosionCandidate [] exampleEnv fooTicker = none := by
  simp only [buildExplosionCandidate]
  rw [if_neg (by decide : ¬ (eligibleSymbol fooTicker.symbol = true))]

theorem codePool_cex : codeCandidatePool cexTickers = [] := by
  unfold codeCandidatePool cexTickers
  rw [List.take_append_of_le_length (by simp [maxCandidates]),
    List.take_of_length_le (by simp [maxCandidates])]
  simp [List.filter_replicate, fooTicker, show eligibleSymbol "FOO" = false from by decide]

theorem specPool_cex : specCandidatePool cexTickers = ["ABCUSDT"] := by
  unfold specCandidatePool cexTickers
  rw [List.filter_append]
  simp [List.filter_replicate, fooTicker, exampleTicker, maxCandidates,
    show eligibleSymbol "FOO" = false from by decide,
    show eligibleSymbol "ABCUSDT" = true from by decide]

theorem explosionCandidates_cex :
    explosionCandidates cexTickers exampleEnv [] = [] := by
  unfold explosionCandidates cexTickers
  rw [List.take_append_of_le_length (by simp [maxCandidates]),
    List.take_of_length_le (by simp [maxCandidates]),
    filterMap_replicate_none buildExplosion_foo_none]
  rfl

theorem rsiAvgGain_nonneg (closes : List ℚ) : 0 ≤ rsiAvgGain closes := by
  unfold rsiAvgGain lastN
  apply div_nonneg _ (by norm_num)
  apply List.sum_nonneg
  intro x hx
  obtain ⟨c, _, rfl⟩ := List.mem_map.mp (List.drop_subset _ _ hx)
  by_cases h : 0 < c
  · simp only [if_pos h]; linarith
  · simp only [if_neg h]; exact le_refl 0

theorem rsiAvgLoss_nonneg (closes : List ℚ) : 0 ≤ rsiAvgLoss closes := by
  unfold rsiAvgLoss lastN
  apply div_nonneg _ (by norm_num)
  apply List.sum_nonneg
  intro x hx
  obtain ⟨c, _, rfl⟩ := List.mem_map.mp (List.drop_subset _ _ hx)
  by_cases h : c < 0
  · simp only [if_pos h]; linarith
  · simp only [if_neg h]; exact le_refl 0

theorem pctChanges_length (closes : List ℚ) :
    (pctChanges closes).length = closes.length - 1 := by
  unfold pctChanges
  rw [List.length_zipWith, List.length_drop]
  omega

theorem popVariance_nonneg (xs : List ℚ) : 0 ≤ popVariance xs := by
  unfold popVariance
  apply div_nonneg _ (by positivity)
  apply List.sum_nonneg
  intro x hx
  obtain ⟨c, _, rfl⟩ := List.mem_map.mp hx
  positivity

/-- Claim C3 (amended): on candle windows shorter than the required
lookback none of the indicator functions raises — `percentChange` returns
0, `rsi` returns 50 and `isCompressed` returns `false` as documented — but
`volatility` on fewer than 2 candles yields the JS `NaN` (modelled `none`),
not its fixed fallback 10 (that value is produced only by the fetch-failure
handler), and `volumeRatio` over an empty historical window returns the
rounded `currentVolume` (the denominator is floored to 1), not the neutral
value 1. -/
theorem short_history_degradation :
    (∀ candles : List Candle, candles.length < 2 → calculateChange candles = 0)
    ∧ (∀ candles : List Candle, candles.length < rsiPeriod + 1 → calculateRSI candles = 50)
    ∧ (∀ candles : List Candle, candles.length < 2 → calculateCompression candles = false)
    ∧ (∀ candles : List Candle, candles.length < 2 → calculateVolatility candles = none)
    ∧ (∀ currentVolume : ℚ, calculateVolumeRatio currentVolume [] = toFixed2 currentVolume) := by
  refine ⟨?_, ?_, ?_, ?_, ?_⟩
  · intro candles h
    match candles, h with
    | [], _ => rfl
    | [_], _ => rfl
  · intro candles h
    simp only [calculateRSI, List.length_map]
    rw [if_pos h]
  · intro candles h
    match candles, h with
    | [], _ => rfl
    | [_], _ => rfl
  · intro candles h
    match candles, h with
    | [], _ => rfl
    | [_], _ => rfl
  · intro currentVolume
    simp only [calculateVolumeRatio, List.map_nil, List.sum_nil, List.length_nil]
    norm_num

/-- Claim C3, counterexample: with no candles, `calculateVolatility`
returns the JS `NaN` (`none`), not the claimed fixed fallback, and
`calculateVolumeRatio` with current volume 5 returns 5, not the claimed
neutral default 1. -/
theorem short_history_defaults_cex :
    calculateVolatility [] = none
    ∧ calculateVolumeRatio 5 [] = 5
    ∧ calculateVolumeRatio 5 [] ≠ 1 := by
  refine ⟨rfl, ?_, ?_⟩
  · norm_num [calculateVolumeRatio, toFixed2, jsRound]
  · norm_num [calculateVolumeRatio, toFixed2, jsRound]

/-- Claim C4: `calculateRSI` always returns an integer in `[0, 100]`; it
returns 50 on fewer than `rsiPeriod + 1` candles; when the simple average
of the last `rsiPeriod` losses is 0 it returns 100 if the average gain is
positive and 50 otherwise (so an all-flat window of closes 100 yields 50);
otherwise it returns `Math.round(100 - 100 / (1 + avgGain / avgLoss))`. -/
theorem rsi_bounds_and_branches :
    (∀ candles : List Candle, 0 ≤ calculateRSI candles ∧ calculateRSI candles ≤ 100)
    ∧ (∀ candles : List Candle, candles.length < rsiPeriod + 1 → calculateRSI candles = 50)
    ∧ (∀ candles : List Candle, rsiPeriod + 1 ≤ candles.length →
        rsiAvgLoss (candles.map Candle.close) = 0 →
        calculateRSI candles
          = if 0 < rsiAvgGain (candles.map Candle.close) then 100 else 50)
    ∧ (∀ candles : List Candle, rsiPeriod + 1 ≤ candles.length →
        rsiAvgLoss (candles.map Candle.close) ≠ 0 →
        calculateRSI candles
          = jsRound (100 - 100 / (1 + rsiAvgGain (candles.map Candle.close)
              / rsiAvgLoss (candles.map Candle.close))))
    ∧ calculateRSI (List.replicate 15 { close := 100, volume := 1 }) = 50 := by
  refine ⟨?_, ?_, ?_, ?_, ?_⟩
  · intro candles
    simp only [calculateRSI, List.length_map]
    by_cases hlen : candles.length < rsiPeriod + 1
    · rw [if_pos hlen]; norm_num
    · rw [if_neg hlen]
      by_cases hl : rsiAvgLoss (candles.map Candle.close) = 0
      · rw [if_pos hl]
        by_cases hg : 0 < rsiAvgGain (candles.map Candle.close)
        · rw [if_pos hg]; norm_num
        · rw [if_neg hg]; norm_num
      · rw [if_neg hl]
        have hg := rsiAvgGain_nonneg (candles.map Candle.close)
        have hl0 := rsiAvgLoss_nonneg (candles.map Candle.close)
        have hlpos : 0 < rsiAvgLoss (candles.map Candle.close) :=
          lt_of_le_of_ne hl0 (Ne.symm hl)
        have hrs : 0 ≤ rsiAvgGain (candles.map Candle.close)
            / rsiAvgLoss (candles.map Candle.close) := div_nonneg hg hl0
        have h1 : (0 : ℚ) < 1 + rsiAvgGain (candles.map Candle.close)
            / rsiAvgLoss (candles.map Candle.close) := by linarith
        have h2 : 100 / (1 + rsiAvgGain (candles.map Candle.close)
            / rsiAvgLoss (candles.map Candle.close)) ≤ 100 := by
          rw [div_le_iff₀ h1]; nlinarith
        have h3 : 0 < 100 / (1 + rsiAvgGain (candles.map Candle.close)
            / rsiAvgLoss (candles.map Candle.close)) := by positivity
        constructor
        · exact jsRound_nonneg (by linarith)
        · exact jsRound_le_of_lt (by push_cast; linarith)
  · intro candles h
    simp only [calculateRSI, List.length_map]
    rw [if_pos h]
  · intro candles hlen hl
    simp only [calculateRSI, List.length_map]
    rw [if_neg (by omega), if_pos hl]
  · intro candles hlen hl
    simp only [calculateRSI, List.length_map]
    rw [if_neg (by omega), if_neg hl]
  · norm_num [calculateRSI, rsiAvgGain, rsiAvgLoss, rsiChanges, lastN, rsiPeriod,
      List.replicate_succ]

/-- Claim C5: for a window of at least 2 candles, `calculateCompression`
is `true` exactly when the population standard deviation of the
consecutive percent-changes is strictly below the threshold 0.5; in
particular a standard deviation exactly equal to the threshold yields
`false`. -/
theorem compression_iff_stddev_below (candles : List Candle)
    (h2 : 2 ≤ candles.length) :
    (calculateCompression candles = true
      ↔ Real.sqrt ((popVariance (pctChanges (candles.map Candle.close)) : ℚ) : ℝ)
          < ((compressionThreshold : ℚ) : ℝ))
    ∧ (Real.sqrt ((popVariance (pctChanges (candles.map Candle.close)) : ℚ) : ℝ)
          = ((compressionThreshold : ℚ) : ℝ)
        → calculateCompression candles = false) := by
  have hlen : (pctChanges (candles.map Candle.close)).length = candles.length - 1 := by
    rw [pctChanges_length, List.length_map]
  have hne : ¬ ((pctChanges (candles.map Candle.close)).isEmpty = true) := by
    rw [List.isEmpty_iff_length_eq_zero, hlen]
    omega
  have hiff : calculateCompression candles = true
      ↔ popVariance (pctChanges (candles.map Candle.close)) < compressionThreshold ^ 2 := by
    simp only [calculateCompression]
    rw [if_neg hne]
    exact decide_eq_true_iff
  have hcast : popVariance (pctChanges (candles.map Candle.close)) < compressionThreshold ^ 2
      ↔ ((popVariance (pctChanges (candles.map Candle.close)) : ℚ) : ℝ)
          < ((compressionThreshold : ℚ) : ℝ) ^ 2 := by
    constructor
    · intro h; exact_mod_cast h
    · intro h; exact_mod_cast h
  have hthr : (0 : ℝ) < ((compressionThreshold : ℚ) : ℝ) := by
    norm_num [compressionThreshold]
  have hsqrt := Real.sqrt_lt' (x := ((popVariance (pctChanges (candles.map Candle.close)) : ℚ) : ℝ)) hthr
  constructor
  · rw [hiff, hcast]
    exact hsqrt.symm
  · intro heq
    by_contra hcontra
    have htrue : calculateCompression candles = true := by
      revert hcontra
      cases calculateCompression candles <;> simp
    have hlt := (hiff.mp htrue)
    rw [hcast] at hlt
    rw [← hsqrt] at hlt
    rw [heq] at hlt
    exact lt_irrefl _ hlt

/-- Claim C5, witness: the theorem applied to a concrete flat 3-candle
window. -/
theorem compression_iff_stddev_below_witness :
    (calculateCompression
        [{ close := 100, volume := 1 }, { close := 100, volume := 1 },
         { close := 100, volume := 1 }] = true
      ↔ Real.sqrt ((popVariance (pctChanges
          (([{ close := 100, volume := 1 }, { close := 100, volume := 1 },
             { close := 100, volume := 1 }] : List Candle).map Candle.close)) : ℚ) : ℝ)
          < ((compressionThreshold : ℚ) : ℝ))
    ∧ (Real.sqrt ((popVariance (pctChanges
          (([{ close := 100, volume := 1 }, { close := 100, volume := 1 },
             { close := 100, volume := 1 }] : List Candle).map Candle.close)) : ℚ) : ℝ)
          = ((compressionThreshold : ℚ) : ℝ)
        → calculateCompression
            [{ close := 100, volume := 1 }, { close := 100, volume := 1 },
             { close := 100, volume := 1 }] = false) :=
  compression_iff_stddev_below
    [{ close := 100, volume := 1 }, { close := 100, volume := 1 },
     { close := 100, volume := 1 }] (by norm_num)

/-- Claim C1: every candidate the explosion endpoint emits carries the
weighted composite score of its indicators (references 25/35/10, weights
0.4/0.2/0.3/0.1, new-listing bonus 20, compression bonus 10, fixed time
bonus 20) and satisfies the admission thresholds (change5m ≥ 3,
change1h ≥ 4, volumeRatio ≥ 1.5, RSI in [40, 70], score ≥ 40); on the
worked example (change5m = 4, change1h = 5, volumeRatio = 2.0, RSI 55, not
new, compressed) the score is exactly 55 and the symbol is admitted, ending
up in the result list. -/
theorem explosion_score_and_admission :
    (∀ (tickers : List Ticker) (env : String → IndicatorSet) (nl : List String)
        (c : Candidate), c ∈ explosionCandidates tickers env nl →
        c.score = explosionScore (env c.symbol) (nl.contains c.symbol)
        ∧ explosionAdmission (env c.symbol) c.score)
    ∧ explosionScore exampleInd false = 55
    ∧ explosionAdmission exampleInd 55
    ∧ explosionCandidates [exampleTicker] exampleEnv [] = [exampleCandidate]
    ∧ exampleCandidate.score = 55 := by
  refine ⟨?_, explosionScore_example, ?_, explosionCandidates_example, rfl⟩
  · intro tickers env nl c hc
    obtain ⟨t, _, hb⟩ := mem_explosionCandidates_inv hc
    obtain ⟨_, hsym, hscore, hadm, _⟩ := buildExplosion_some_inv hb
    rw [hsym]
    exact ⟨hscore, hadm⟩
  · unfold explosionAdmission exampleInd minGain5m minGain1h minVolRatio rsiMin rsiMax
      minExplosionScore
    norm_num

theorem jsRound_shift_twenty (q : ℚ) : jsRound (q + 20) = jsRound q + 20 := by
  have h := jsRound_add_int q 20
  rw [show (((20 : ℤ) : ℚ)) = (20 : ℚ) by norm_num] at h
  exact h

/-- Claim C2, counterexample: on the worked example indicators the
single-symbol analysis score (35) is not the explosion-candidate composite
(55): the analysis formula omits the new-listing bonus and the fixed time
bonus. -/
theorem analysis_vs_explosion_cex :
    analysisScore exampleInd ≠ explosionScore exampleInd false := by
  rw [analysisScore_example, explosionScore_example]
  norm_num

/-- Claim C2 (amended): the single-symbol analysis endpoint uses the same
weighted indicator terms and compression bonus as the explosion scenario
but omits the new-listing bonus and the fixed time bonus of 20, so for
identical inputs its score equals the explosion composite (with
`isNewListing = false`) minus 20; no admission filter is applied and
exactly one result is returned, for the requested symbol. -/
theorem analysis_score_offset :
    (∀ ind : IndicatorSet, analysisScore ind = explosionScore ind false - 20)
    ∧ (∀ (t : Ticker) (ind : IndicatorSet),
        (analysisResult t ind).symbol = t.symbol
        ∧ (analysisResult t ind).score = analysisScore ind
        ∧ (analysisResult t ind).action = explosionAction (analysisScore ind)) := by
  constructor
  · intro ind
    unfold analysisScore explosionScore
    rw [show (ind.change5m / 25 * 100 * 0.4 + ind.change1h / 35 * 100 * 0.2
        + ind.volumeRatio / 10 * 100 * 0.3
        + (if rsiMin ≤ ind.rsi ∧ ind.rsi ≤ rsiMax then (100 : ℚ) else 50) * 0.1
        + (if (false : Bool) then (20 : ℚ) else 0)
        + (if ind.compression then (10 : ℚ) else 0) + 20)
        = (ind.change5m / 25 * 100 * 0.4 + ind.change1h / 35 * 100 * 0.2
        + ind.volumeRatio / 10 * 100 * 0.3
        + (if rsiMin ≤ ind.rsi ∧ ind.rsi ≤ rsiMax then (100 : ℚ) else 50) * 0.1
        + (if ind.compression then (10 : ℚ) else 0)) + 20 by
      norm_num]
    rw [jsRound_shift_twenty]
    omega
  · intro t ind
    exact ⟨rfl, rfl, rfl⟩

/-- Claim C6: for any ticker universe, both ranked endpoints return at
most `topResults` (10) entries, and the returned list is sorted by score
descending (the truncation happens after the sort). -/
theorem results_bounded_and_sorted :
    ∀ (tickers : List Ticker) (env : String → IndicatorSet) (nl : List String),
      ((explosionCandidates tickers env nl).length ≤ topResults
        ∧ List.Sorted (fun a b => b.score ≤ a.score) (explosionCandidates tickers env nl))
      ∧ ((preExplosionSignals tickers env nl).length ≤ topResults
        ∧ List.Sorted (fun a b => b.score ≤ a.score) (preExplosionSignals tickers env nl)) := by
  intro tickers env nl
  exact ⟨⟨rankTruncate_length_le _, rankTruncate_sorted _⟩,
    ⟨rankTruncate_length_le _, rankTruncate_sorted _⟩⟩

/-- Claim C7: every candidate either ranked endpoint emits has a symbol
ending in the USDT quote suffix and not present in the popular-token set,
whatever score those excluded symbols would have computed. -/
theorem output_symbols_eligible :
    ∀ (tickers : List Ticker) (env : String → IndicatorSet) (nl : List String)
      (c : Candidate),
      (c ∈ explosionCandidates tickers env nl ∨ c ∈ preExplosionSignals tickers env nl) →
      jsEndsWith c.symbol "USDT" = true ∧ popularTokens.contains c.symbol = false := by
  intro tickers env nl c hc
  have hel : eligibleSymbol c.symbol = true := by
    rcases hc with h | h
    · obtain ⟨t, _, hb⟩ := mem_explosionCandidates_inv h
      obtain ⟨he, hsym, _, _, _⟩ := buildExplosion_some_inv hb
      rw [hsym]; exact he
    · obtain ⟨t, _, hb⟩ := mem_preExplosionSignals_inv h
      obtain ⟨he, hsym, _, _, _⟩ := buildAlert_some_inv hb
      rw [hsym]; exact he
  rw [eligibleSymbol, Bool.and_eq_true] at hel
  refine ⟨hel.1, ?_⟩
  have h2 := hel.2
  cases hcon : popularTokens.contains c.symbol
  · rfl
  · rw [hcon] at h2; cases h2

/-- Claim C7, witness: the theorem applied to the worked example's
one-ticker universe and its emitted candidate. -/
theorem output_symbols_eligible_witness :
    jsEndsWith exampleCandidate.symbol "USDT" = true
    ∧ popularTokens.contains exampleCandidate.symbol = false :=
  output_symbols_eligible [exampleTicker] exampleEnv [] exampleCandidate
    (Or.inl (by rw [explosionCandidates_example]; exact List.mem_singleton.mpr rfl))

/-- Claim C8, counterexample: on a snapshot whose first 50 entries are
ineligible and whose 51st is an eligible, admissible symbol, the code's
pool (truncate first, filter after) is empty — and the explosion pipeline
returns nothing — whereas the spec's pool (filter first, then truncate to
50) contains that symbol. -/
theorem pool_order_cex :
    codeCandidatePool cexTickers = []
    ∧ specCandidatePool cexTickers = ["ABCUSDT"]
    ∧ codeCandidatePool cexTickers ≠ specCandidatePool cexTickers
    ∧ explosionCandidates cexTickers exampleEnv [] = [] := by
  refine ⟨codePool_cex, specPool_cex, ?_, explosionCandidates_cex⟩
  rw [codePool_cex, specPool_cex]
  simp

/-- Claim C8 (amended): the pipelines truncate the raw snapshot to the
first `maxCandidates` (50) entries BEFORE filtering for eligibility, so
the symbols that proceed to indicator computation are the eligible ones
among the snapshot's first 50 raw entries; this agrees with the spec's
filter-then-truncate pool whenever the snapshot has at most 50 entries. -/
theorem pool_truncate_then_filter :
    (∀ (tickers : List Ticker) (env : String → IndicatorSet) (nl : List String)
        (c : Candidate), c ∈ explosionCandidates tickers env nl →
        c.symbol ∈ codeCandidatePool tickers)
    ∧ (∀ (tickers : List Ticker) (env : String → IndicatorSet) (nl : List String)
        (c : Candidate), c ∈ preExplosionSignals tickers env nl →
        c.symbol ∈ codeCandidatePool tickers)
    ∧ (∀ tickers : List Ticker, tickers.length ≤ maxCandidates →
        codeCandidatePool tickers = specCandidatePool tickers) := by
  refine ⟨?_, ?_, ?_⟩
  · intro tickers env nl c hc
    obtain ⟨t, ht, hb⟩ := mem_explosionCandidates_inv hc
    obtain ⟨he, hsym, _, _, _⟩ := buildExplosion_some_inv hb
    unfold codeCandidatePool
    rw [hsym]
    exact List.mem_map_of_mem _ (List.mem_filter.mpr ⟨ht, he⟩)
  · intro tickers env nl c hc
    obtain ⟨t, ht, hb⟩ := mem_preExplosionSignals_inv hc
    obtain ⟨he, hsym, _, _, _⟩ := buildAlert_some_inv hb
    unfold codeCandidatePool
    rw [hsym]
    exact List.mem_map_of_mem _ (List.mem_filter.mpr ⟨ht, he⟩)
  · intro tickers hlen
    unfold codeCandidatePool specCandidatePool
    rw [List.take_of_length_le hlen,
      List.take_of_length_le (le_trans (List.length_filter_le _ _) hlen)]

/-- Claim C9: while a scenario's short-cache entry is unexpired (`get`
returns it), a run of that scenario's endpoint returns exactly the stored
list, performs zero upstream fetches and leaves the cache unchanged. -/
theorem cache_hit_short_circuit :
    ∀ (cache : CacheState) (tickers : List Ticker) (env : String → IndicatorSet)
      (freshListings : List String) (r r2 : List Candidate),
      (cache.short "explosionCandidates" = some r →
        runExplosion cache tickers env freshListings = (r, 0, cache))
      ∧ (cache.short "preExplosionSignals" = some r2 →
        runPreExplosion cache tickers env freshListings = (r2, 0, cache)) := by
  intro cache tickers env freshListings r r2
  constructor
  · intro h; unfold runExplosion; rw [h]
  · intro h; unfold runPreExplosion; rw [h]

/-- Claim C10: every admitted pre-explosion alert has score ≥ 40 and its
recommendation action is exactly tiered by the score — top tier iff
score ≥ 80, middle tier iff 60 ≤ score < 80, and the avoid tier iff
40 ≤ score < 60 — so the output can contain candidates whose own
recommendation says to avoid them, as the concrete run with score 42
shows. -/
theorem alert_action_tiers :
    (∀ (tickers : List Ticker) (env : String → IndicatorSet) (nl : List String)
        (c : Candidate), c ∈ preExplosionSignals tickers env nl →
        minAlertScore ≤ c.score
        ∧ (c.action = "🔥 POSIBLE EXPLOSIÓN" ↔ 80 ≤ c.score)
        ∧ (c.action = "👀 MONITOREAR" ↔ 60 ≤ c.score ∧ c.score < 80)
        ∧ (c.action = "❌ EVITAR" ↔ 40 ≤ c.score ∧ c.score < 60))
    ∧ preExplosionSignals [exampleTicker] avoidEnv [] = [avoidCandidate]
    ∧ avoidCandidate.action = "❌ EVITAR"
    ∧ minAlertScore ≤ avoidCandidate.score ∧ avoidCandidate.score < 60 := by
  refine ⟨?_, preExplosionSignals_avoid, rfl,
    by norm_num [avoidCandidate, minAlertScore], by norm_num [avoidCandidate]⟩
  intro tickers env nl c hc
  obtain ⟨t, _, hb⟩ := mem_preExplosionSignals_inv hc
  obtain ⟨_, _, _, hadm, hact⟩ := buildAlert_some_inv hb
  have hmin : minAlertScore ≤ c.score := hadm.2.2.2
  have hmin40 : (40 : ℤ) ≤ c.score := by
    unfold minAlertScore at hmin; exact hmin
  refine ⟨hmin, ?_⟩
  unfold alertAction at hact
  by_cases h80 : 80 ≤ c.score
  · rw [if_pos h80] at hact
    refine ⟨⟨fun _ => h80, fun _ => hact⟩, ?_, ?_⟩
    · constructor
      · intro he; rw [hact] at he; exact absurd he (by decide)
      · rintro ⟨_, hlt⟩; omega
    · constructor
      · intro he; rw [hact] at he; exact absurd he (by decide)
      · rintro ⟨_, hlt⟩; omega
  · rw [if_neg h80] at hact
    by_cases h60 : 60 ≤ c.score
    · rw [if_pos h60] at hact
      refine ⟨?_, ⟨fun _ => ⟨h60, by omega⟩, fun _ => hact⟩, ?_⟩
      · constructor
        · intro he; rw [hact] at he; exact absurd he (by decide)
        · intro hge; omega
      · constructor
        · intro he; rw [hact] at he; exact absurd he (by decide)
        · rintro ⟨_, hlt⟩; omega
    · rw [if_neg h60] at hact
      refine ⟨?_, ?_, ⟨fun _ => ⟨hmin40, by omega⟩, fun _ => hact⟩⟩
      · constructor
        · intro he; rw [hact] at he; exact absurd he (by decide)
        · intro hge; omega
      · constructor
        · intro he; rw [hact] at he; exact absurd he (by decide)
        · rintro ⟨hge, _⟩; omega

end BoostIQ

